import Mathlib

/-!
Verification development for the sei-mcp-server HTTP gateway.

The repository contains two near-identical variants of the HTTP server:
`src/server/http-server.ts` (called the "main" variant below) and a second
unnamed source file (called the "alt" variant below).  Both keep a JS `Map`
from session identifier to SSE transport, expose a `GET /sse` persistent
stream endpoint, a `POST /messages` addressed-message endpoint, and a
`POST /api/mcp` direct-call endpoint.  The definitions below are shallow
embeddings of those handlers; backend blockchain services are modelled as
opaque oracles, exactly as the spec scopes them out.
-/

namespace SeiMcp

/-! ## JS Map model (the `connections` map)

JS `Map` semantics: `set` on an existing key updates the value in place and
keeps the insertion position, otherwise appends; `delete` removes the entry
with that key; `keys()` iterates in insertion order.  Modelled as an
association list. -/

abbrev Registry := List (String × Nat)

def mapSet (m : Registry) (k : String) (v : Nat) : Registry :=
  if m.any (fun p => p.1 == k) then
    m.map (fun p => if p.1 == k then (k, v) else p)
  else m ++ [(k, v)]

def mapDelete (m : Registry) (k : String) : Registry :=
  m.filter (fun p => decide (p.1 ≠ k))

def mapGet (m : Registry) (k : String) : Option Nat :=
  (m.find? (fun p => p.1 == k)).map Prod.snd

def mapKeys (m : Registry) : List String :=
  m.map Prod.fst

/-! ## JS truthiness on optional strings

`req.query.sessionId?.toString()` yields `undefined` (modelled `none`) or a
string; `if (!sessionId)` is false exactly when the value is a nonempty
string. -/

def truthyOpt : Option String → Bool
  | some t => !(t == "")
  | none => false

/-! ## Session identifier resolution in `GET /sse`

`let sessionId = req.query.sessionId?.toString(); if (!sessionId) sessionId
= generateSessionId();` — the generated identifier is passed in as `genId`
(the outcome of the random generator). -/

def effectiveSessionId (query : Option String) (genId : String) : String :=
  match query with
  | some s => if s == "" then genId else s
  | none => genId

/-! ## POST /messages handler (identical in both variants)

Outcomes of the handler.  `handled sid t` models the (sole) call of
`transport.handlePostMessage` on the transport `t` found under `sid`; every
other outcome returns an error response without invoking any session
handler. -/

inductive MsgOutcome where
  | serviceUnavailable
  | ambiguousOrMissing (activeConnections : Nat)
  | sessionNotFound
  | handled (sessionId : String) (transport : Nat)
  deriving DecidableEq

/-- Resolution step of `POST /messages`: if no truthy sessionId was supplied
and exactly one connection exists, take the first key of the map. -/
def resolvedSessionId (conns : Registry) (query : Option String) : Option String :=
  if !truthyOpt query && conns.length == 1 then (mapKeys conns).head?
  else query

/-- The `POST /messages` handler.  Checks happen in source order: resolution,
then the `!server` 503 guard, then the `!sessionId` 400 guard, then the map
lookup (404 on miss), then the forward to the transport. -/
def postMessages (serverUp : Bool) (conns : Registry) (query : Option String) : MsgOutcome :=
  let sid := resolvedSessionId conns query
  if !serverUp then .serviceUnavailable
  else if !truthyOpt sid then .ambiguousOrMissing conns.length
  else
    let s := sid.getD ""
    match mapGet conns s with
    | none => .sessionNotFound
    | some t => .handled s t

/-! ## JSON values

JSON-like values exchanged with the backend oracles.  `big` is a JS
`BigInt`; `num` is a native JS number.  Float rounding of `Number(...)` is
not modelled: the integer value is kept exact (this is charitable to the
code; the claims below only depend on string-versus-native-number). -/

inductive Json where
  | null
  | bool (b : Bool)
  | num (n : Int)
  | big (n : Int)
  | str (s : String)
  | arr (elems : List Json)
  | obj (fields : List (String × Json))

/-- JS property access `j.k` on an object; `null` stands for `undefined`
(the distinction is immaterial to the claims, both are falsy). -/
def jget (j : Json) (k : String) : Json :=
  match j with
  | .obj fs =>
    match fs.find? (fun p => p.1 == k) with
    | some p => p.2
    | none => .null
  | _ => .null

/-- JS falsiness of a JSON value. -/
def jsonFalsy : Json → Bool
  | .null => true
  | .bool b => !b
  | .num n => n == 0
  | .big n => n == 0
  | .str s => s == ""
  | .arr _ => false
  | .obj _ => false

/-- `id || null`, used by the alt variant when building error envelopes. -/
def idOrNull (j : Json) : Json := if jsonFalsy j then .null else j

/-- `Number(x)` for the values the handlers apply it to (BigInt and
numbers; other inputs do not occur on the claims under study). -/
def jsNumber : Json → Int
  | .num n => n
  | .big n => n
  | .bool true => 1
  | _ => 0

/-! ## BigInt-safe serialization (main variant)

`JSON.parse(JSON.stringify(result, (key, value) => typeof value === 'bigint'
? value.toString() : value))` — every BigInt leaf is replaced by its decimal
string; everything else is left unchanged. -/

mutual

def serializeBigInts : Json → Json
  | .null => .null
  | .bool b => .bool b
  | .num n => .num n
  | .big n => .str (toString n)
  | .str s => .str s
  | .arr xs => .arr (serializeBigIntsList xs)
  | .obj fs => .obj (serializeBigIntsObj fs)

def serializeBigIntsList : List Json → List Json
  | [] => []
  | x :: xs => serializeBigInts x :: serializeBigIntsList xs

def serializeBigIntsObj : List (String × Json) → List (String × Json)
  | [] => []
  | (k, v) :: fs => (k, serializeBigInts v) :: serializeBigIntsObj fs

end

/-! `bigsCoerced orig out` holds when `out` is `orig` with every BigInt leaf
replaced by its decimal string representation and no other change (in
particular `out` has no BigInt leaf and no BigInt was turned into a native
number). -/

mutual

def bigsCoerced : Json → Json → Bool
  | .big n, .str s => s == toString n
  | .null, .null => true
  | .bool a, .bool b => a == b
  | .num a, .num b => a == b
  | .str a, .str b => a == b
  | .arr xs, .arr ys => bigsCoercedList xs ys
  | .obj fs, .obj gs => bigsCoercedObj fs gs
  | _, _ => false

def bigsCoercedList : List Json → List Json → Bool
  | [], [] => true
  | x :: xs, y :: ys => bigsCoerced x y && bigsCoercedList xs ys
  | _, _ => false

def bigsCoercedObj : List (String × Json) → List (String × Json) → Bool
  | [], [] => true
  | (k, v) :: fs, (k', w) :: gs => k == k' && bigsCoerced v w && bigsCoercedObj fs gs
  | _, _ => false

end

/-! ## POST /api/mcp — main variant (`src/server/http-server.ts`)

The request body destructures as `const { method, params, id } = req.body`
(the `jsonrpc` field is never read by this variant).  Known methods invoke
the corresponding backend service; those services (including the sei1 REST
fallback chain inside `get_balance`, `BigInt(params.value)` conversion in
`estimate_gas`, ABI parsing in `read_contract`, ...) are external
collaborators, folded into the oracle `backend : method → params → result`.
The unknown-method default `throw`s, which the surrounding catch turns into
a `{code: -32603, message: "Unknown method: ..."}` error envelope.  The
second component of the result records which backend operations were
invoked, in order. -/

structure RpcRequest where
  jsonrpc : Option String
  id : Json
  method : Option String
  params : Json

def knownMethods : List String :=
  ["get_balance", "get_transaction", "get_transaction_receipt",
   "get_latest_block", "get_block_by_number", "get_chain_info",
   "get_supported_networks", "estimate_gas", "get_erc20_balance",
   "get_erc20_token_info", "get_erc721_token_metadata",
   "get_erc1155_token_uri", "check_nft_ownership", "get_nft_balance",
   "get_erc1155_balance", "is_contract", "read_contract"]

inductive ApiOutcome where
  | serverNotReady (id : Json)
  | success (id : Json) (result : Json)
  | rpcError (id : Json) (code : Int) (message : String)

def apiMcpMain (serverUp : Bool) (backend : String → Json → Json)
    (req : RpcRequest) : ApiOutcome × List String :=
  if !serverUp then (.serverNotReady req.id, [])
  else
    match req.method with
    | some m =>
      if knownMethods.contains m then
        (.success req.id (serializeBigInts (backend m req.params)), [m])
      else
        (.rpcError req.id (-32603) ("Unknown method: " ++ m), [])
    | none => (.rpcError req.id (-32603) ("Unknown method: undefined"), [])

/-! ## POST /api/mcp — alt variant (unnamed source file)

This variant validates `jsonrpc === '2.0'` and a truthy `method` first, then
dispatches: `get_supported_networks` and `get_balance` return hardcoded
values without touching any backend, `get_latest_block` and
`get_transaction` call the real services, and the default branch returns a
SUCCESS envelope with a "received but not yet implemented" message.
`dateIso` models `new Date(ms).toISOString()` and `nowIso` models
`new Date().toISOString()`; the receipt try/catch fallback is folded into
the oracle. -/

/-- `params.network || 'sei'` (non-string truthy network values are not
exercised by any claim). -/
def networkOr (params : Json) : String :=
  match jget params "network" with
  | .str s => if s == "" then "sei" else s
  | _ => "sei"

/-- `x?.toString() || '0'` on an optional numeric field. -/
def numStrOr0 (j : Json) : String :=
  match j with
  | .big n => toString n
  | .num n => toString n
  | _ => "0"

/-- `x || []`. -/
def jsOrEmptyArr (j : Json) : Json := if jsonFalsy j then .arr [] else j

/-- Result object built by the alt variant for `get_latest_block`:
`{ number: Number(block.number), hash, timestamp:
new Date(Number(block.timestamp) * 1000).toISOString(), transactions:
block.transactions || [], gasUsed: block.gasUsed?.toString() || '0',
gasLimit: block.gasLimit?.toString() || '0', network }`. -/
def altLatestBlock (dateIso : Int → String) (block : Json) (network : String) : Json :=
  .obj [("number", .num (jsNumber (jget block "number"))),
        ("hash", jget block "hash"),
        ("timestamp", .str (dateIso (jsNumber (jget block "timestamp") * 1000))),
        ("transactions", jsOrEmptyArr (jget block "transactions")),
        ("gasUsed", .str (numStrOr0 (jget block "gasUsed"))),
        ("gasLimit", .str (numStrOr0 (jget block "gasLimit"))),
        ("network", .str network)]

/-- Result object built by the alt variant for `get_transaction` (both
timestamp branches evaluate `new Date().toISOString()`). -/
def altTransaction (nowIso : String) (tx receipt : Json) (network : String) : Json :=
  .obj [("hash", jget tx "hash"),
        ("from", jget tx "from"),
        ("to", jget tx "to"),
        ("value", .str (numStrOr0 (jget tx "value"))),
        ("gasUsed", .str (match jget receipt "gasUsed" with
          | .big n => toString n
          | .num n => toString n
          | _ => numStrOr0 (jget tx "gas"))),
        ("gasPrice", .str (numStrOr0 (jget tx "gasPrice"))),
        ("blockNumber", .num (jsNumber (jget tx "blockNumber"))),
        ("timestamp", .str nowIso),
        ("status", .str (match jget receipt "status" with
          | .str s => if s == "success" then "success" else "failed"
          | _ => "failed")),
        ("network", .str network)]

inductive AltOutcome where
  | serverNotReady (id : Json)
  | invalidVersion (id : Json)
  | missingMethod (id : Json)
  | success (id : Json) (result : Json)

def altIsError : AltOutcome → Bool
  | .success _ _ => false
  | _ => true

def apiMcpAlt (serverUp : Bool) (dateIso : Int → String) (nowIso : String)
    (backend : String → Json → Json) (req : RpcRequest) : AltOutcome × List String :=
  if !serverUp then (.serverNotReady (idOrNull req.id), [])
  else if req.jsonrpc ≠ some "2.0" then (.invalidVersion (idOrNull req.id), [])
  else if !truthyOpt req.method then (.missingMethod (idOrNull req.id), [])
  else
    let m := req.method.getD ""
    if m == "get_supported_networks" then
      (.success req.id (.arr [.str "evm", .str "native"]), [])
    else if m == "get_balance" then
      (.success req.id (.obj [("amount", .str "0"), ("denom", .str "sei"),
                              ("formatted", .str "0 SEI")]), [])
    else if m == "get_latest_block" then
      let block := backend "get_latest_block" req.params
      (.success req.id (altLatestBlock dateIso block (networkOr req.params)),
       ["get_latest_block"])
    else if m == "get_transaction" then
      if jsonFalsy (jget req.params "hash") then
        (.success req.id (.obj [("error", .str "Transaction hash is required")]), [])
      else
        let tx := backend "get_transaction" req.params
        let receipt := backend "get_transaction_receipt" req.params
        (.success req.id (altTransaction nowIso tx receipt (networkOr req.params)),
         ["get_transaction", "get_transaction_receipt"])
    else
      (.success req.id
        (.obj [("message", .str ("Method " ++ m ++ " received but not yet implemented"))]), [])

/-! ## GET /sse handler as an event trace (identical in both variants)

The handler (after the 503 guard and header writes): resolve the session
identifier, `new SSEServerTransport(...)` inside a try (construction failure
hits the catch: `connections.delete(sessionId)` and a 500 response), then
`connections.set(sessionId, transport)`, register the close callback, and
`server.connect(transport)` whose `.then` writes the `session_init` ready
event and whose `.catch` does `connections.delete(sessionId)`.  The trace
lists these effects in the order they are executed for one connection. -/

inductive SseEvent where
  | rejectedUnavailable
  | registryInsert (sessionId : String) (transport : Nat)
  | attachStart (transport : Nat)
  | attachSucceeded (transport : Nat)
  | notifyReady (sessionId : String)
  | attachFailed (transport : Nat)
  | registryDelete (sessionId : String)
  | httpError500
  deriving DecidableEq

def sseHandlerTrace (serverUp : Bool) (query : Option String) (genId : String)
    (transport : Nat) (constructOk : Bool) (attachOk : Bool) : List SseEvent :=
  if !serverUp then [.rejectedUnavailable]
  else
    let sid := effectiveSessionId query genId
    if !constructOk then [.registryDelete sid, .httpError500]
    else
      [.registryInsert sid transport, .attachStart transport] ++
      (if attachOk then [.attachSucceeded transport, .notifyReady sid]
       else [.attachFailed transport, .registryDelete sid])

/-- `e1` occurs at a strictly earlier position than `e2` in the trace. -/
def occursBefore (tr : List SseEvent) (e1 e2 : SseEvent) : Prop :=
  ∃ i j, i < j ∧ tr.get? i = some e1 ∧ tr.get? j = some e2

/-! ## Server state machine: /sse opens and closes against the registry

The shared mutable state is the `connections` map.  `openStreams` tracks the
currently-open persistent connections with the session identifier each one
is bound to (each connection gets a fresh serial as its transport token);
this bookkeeping is outside the registry and exists only to state the
claims.  `Event.openOk` is a successful accept-and-attach; `Event.openFail`
is an accept whose attach fails (the `.catch` deletes the key, and the
stream is not considered open); `Event.close` fires the close callback of
the named connection, which does `connections.delete(sessionId)` for the
identifier that connection was bound to, unconditionally. -/

structure ServerState where
  connections : Registry
  openStreams : List (Nat × String)
  nextSerial : Nat
  deriving DecidableEq

inductive Event where
  | openOk (query : Option String) (genId : String)
  | openFail (query : Option String) (genId : String)
  | close (serial : Nat)
  deriving DecidableEq

def initState : ServerState := { connections := [], openStreams := [], nextSerial := 0 }

def stepClose (s : ServerState) (serial : Nat) : ServerState :=
  match s.openStreams.find? (fun c => c.1 == serial) with
  | none => s
  | some c =>
    { connections := mapDelete s.connections c.2,
      openStreams := s.openStreams.filter (fun x => decide (x.1 ≠ serial)),
      nextSerial := s.nextSerial }

def execStep (s : ServerState) : Event → ServerState
  | .openOk query genId =>
    let sid := effectiveSessionId query genId
    { connections := mapSet s.connections sid s.nextSerial,
      openStreams := s.openStreams ++ [(s.nextSerial, sid)],
      nextSerial := s.nextSerial + 1 }
  | .openFail query genId =>
    let sid := effectiveSessionId query genId
    { connections := mapDelete (mapSet s.connections sid s.nextSerial) sid,
      openStreams := s.openStreams,
      nextSerial := s.nextSerial + 1 }
  | .close serial => stepClose s serial

def execRun (s : ServerState) : List Event → ServerState
  | [] => s
  | e :: es => execRun (execStep s e) es

def exec (tr : List Event) : ServerState := execRun initState tr

/-- An execution is collision-free when no stream-open ever registers a
session identifier already bound to a currently-open stream. -/
def collisionFreeFrom (s : ServerState) : List Event → Bool
  | [] => true
  | e :: es =>
    (match e with
     | .openOk q g => !(s.openStreams.map Prod.snd).contains (effectiveSessionId q g)
     | .openFail q g => !(s.openStreams.map Prod.snd).contains (effectiveSessionId q g)
     | .close _ => true) && collisionFreeFrom (execStep s e) es

def collisionFree (tr : List Event) : Bool := collisionFreeFrom initState tr

/-- The registry invariant of claim C3: size equals the number of open
persistent connections, no duplicate identifiers, and each registered
identifier is bound to exactly one open stream. -/
def registryInvariant (s : ServerState) : Prop :=
  s.connections.length = s.openStreams.length ∧
  (mapKeys s.connections).Nodup ∧
  ∀ p ∈ s.connections, (s.openStreams.filter (fun c => decide (c.2 = p.1))).length = 1

/-! ## generateSessionId

`'xxxxxxxx-xxxx-4xxx-yxxx-xxxxxxxxxxxx'.replace(/[xy]/g, c => { const r =
Math.random() * 16 | 0; const v = c === 'x' ? r : (r & 0x3 | 0x8); return
v.toString(16); })` — the random source is modelled as a stream of draws
`f : Nat → Nat`, with each `Math.random() * 16 | 0` taken modulo 16 (the JS
value is always in 0..15). -/

/-- `v.toString(16)` for `v` in 0..15: lowercase hex digit characters,
which is exactly what `Nat.digitChar` produces on 0..15. -/
def hexDigit (n : Nat) : Char := Nat.digitChar n

def uuidTemplate : List Char := "xxxxxxxx-xxxx-4xxx-yxxx-xxxxxxxxxxxx".toList

/-- The `replace` traversal: `i` counts the random draws consumed so far. -/
def genChars : List Char → (Nat → Nat) → Nat → List Char
  | [], _, _ => []
  | c :: cs, f, i =>
    if c = 'x' then hexDigit (f i % 16) :: genChars cs f (i + 1)
    else if c = 'y' then hexDigit ((f i % 16) &&& 3 ||| 8) :: genChars cs f (i + 1)
    else c :: genChars cs f i

def generateSessionId (f : Nat → Nat) : String := String.mk (genChars uuidTemplate f 0)

/-- Lowercase hexadecimal digit. -/
def isHexChar (c : Char) : Bool := c.isDigit || ('a' ≤ c && c ≤ 'f')

/-! ## Concrete instances used by counterexamples and witnesses -/

/-- A backend oracle returning a fixed string result. -/
def bkConst : String → Json → Json := fun _ _ => .str "ok"

/-- `Int.toString` stands in for the opaque `Date.toISOString` rendering;
any function would do for the claims. -/
def dateIsoNum : Int → String := fun n => toString n

/-- A call envelope with a valid version and an unknown method name. -/
def reqUnknown : RpcRequest :=
  { jsonrpc := some "2.0", id := .num 1, method := some "frobnicate", params := .obj [] }

/-- A call envelope with a wrong protocol version and a known method. -/
def reqBadVersion : RpcRequest :=
  { jsonrpc := some "1.0", id := .num 1,
    method := some "get_supported_networks", params := .obj [] }

/-- Backend oracle for the C8 counterexample: `get_latest_block` returns a
block whose `number`, `timestamp`, `gasUsed` and `gasLimit` fields are
BigInt values (as the real viem-based service does). -/
def bkBlock : String → Json → Json := fun m _ =>
  if m == "get_latest_block" then
    .obj [("number", .big 1152921504606846976), ("hash", .str "0xabc"),
          ("timestamp", .big 1700000000), ("gasUsed", .big 21000),
          ("gasLimit", .big 30000000)]
  else .null

def reqLatestBlock : RpcRequest :=
  { jsonrpc := some "2.0", id := .num 1,
    method := some "get_latest_block", params := .obj [] }

/-! ## Invariant definitions for C3 and C4 -/

def swapPair (c : Nat × String) : String × Nat := (c.2, c.1)

/-- Inductive invariant tying the registry to the open streams: the registry
is exactly the open streams with key and value swapped (in open order),
identifiers of open streams are pairwise distinct, serials are pairwise
distinct and below the serial counter. -/
def goodState (s : ServerState) : Prop :=
  s.connections = s.openStreams.map swapPair ∧
  (s.openStreams.map Prod.snd).Nodup ∧
  (s.openStreams.map Prod.fst).Nodup ∧
  ∀ c ∈ s.openStreams, c.1 < s.nextSerial

/-- The collision run used by the C4 counterexample: stream 0 and stream 1
both register identifier "a"; stream 1 closes, deleting the single shared
entry. -/
def collisionState : ServerState :=
  exec [Event.openOk (some "a") "g1", Event.openOk (some "a") "g2", Event.close 1]

/-! # Claim theorems -/

mutual

theorem bigsCoerced_serialize (j : Json) : bigsCoerced j (serializeBigInts j) = true := by
  cases j with
  | null => rfl
  | bool b => simp [serializeBigInts, bigsCoerced]
  | num n => simp [serializeBigInts, bigsCoerced]
  | big n => simp [serializeBigInts, bigsCoerced]
  | str s => simp [serializeBigInts, bigsCoerced]
  | arr xs => simpa [serializeBigInts, bigsCoerced] using bigsCoercedList_serialize xs
  | obj fs => simpa [serializeBigInts, bigsCoerced] using bigsCoercedObj_serialize fs

theorem bigsCoercedList_serialize (xs : List Json) :
    bigsCoercedList xs (serializeBigIntsList xs) = true := by
  cases xs with
  | nil => rfl
  | cons x xs =>
    simpa [serializeBigIntsList, bigsCoercedList] using
      And.intro (bigsCoerced_serialize x) (bigsCoercedList_serialize xs)

theorem bigsCoercedObj_serialize (fs : List (String × Json)) :
    bigsCoercedObj fs (serializeBigIntsObj fs) = true := by
  cases fs with
  | nil => rfl
  | cons f fs =>
    simpa [serializeBigIntsObj, bigsCoercedObj] using
      And.intro (bigsCoerced_serialize f.2) (bigsCoercedObj_serialize fs)

end

/-- C1: on `POST /messages`, a supplied (nonempty) session identifier is
used unchanged as the effective identifier; with none supplied and exactly
one registry entry the message is routed to that entry's transport; with
none supplied and zero or several entries dispatch fails with the
ambiguous-or-missing-session error (HTTP 400) and no session handler is
invoked. -/
theorem c1_message_routing (conns : Registry) :
    (∀ s : String, s ≠ "" → resolvedSessionId conns (some s) = some s) ∧
    (∀ (q : Option String) (k : String) (t : Nat), truthyOpt q = false → k ≠ "" →
      conns = [(k, t)] → postMessages true conns q = .handled k t) ∧
    (∀ q : Option String, truthyOpt q = false → conns.length ≠ 1 →
      postMessages true conns q = .ambiguousOrMissing conns.length ∧
      ∀ k t, postMessages true conns q ≠ .handled k t) := by
  refine ⟨?_, ?_, ?_⟩
  · intro s hs
    have hsb : (s == "") = false := beq_eq_false_iff_ne.mpr hs
    simp [resolvedSessionId, truthyOpt, hsb]
  · intro q k t hq hk hc
    subst hc
    have hkb : (k == "") = false := beq_eq_false_iff_ne.mpr hk
    have hres : resolvedSessionId [(k, t)] q = some k := by
      simp [resolvedSessionId, hq, mapKeys]
    simp [postMessages, hres, truthyOpt, hkb, mapGet, List.find?]
  · intro q hq hlen
    have hres : resolvedSessionId conns q = q := by
      simp [resolvedSessionId, hq, hlen]
    constructor
    · simp [postMessages, hres, hq]
    · intro k t
      simp [postMessages, hres, hq]

/-- C1 witness: concrete single-entry routing and concrete ambiguous
failure. -/
theorem c1_message_routing_witness :
    postMessages true [("abc", 5)] none = .handled "abc" 5 ∧
    postMessages true [("a", 1), ("b", 2)] none = .ambiguousOrMissing 2 :=
  ⟨(c1_message_routing [("abc", 5)]).2.1 none "abc" 5 rfl (by decide) rfl,
   ((c1_message_routing [("a", 1), ("b", 2)]).2.2 none rfl (by decide)).1⟩

/-- C5: when the effective (supplied or resolved) session identifier is not
a key of the registry, `POST /messages` fails with the 404 session-not-found
error and `transport.handlePostMessage` is never invoked. -/
theorem c5_session_not_found (conns : Registry) (q : Option String) (s : String)
    (hres : resolvedSessionId conns q = some s) (hs : s ≠ "")
    (habs : mapGet conns s = none) :
    postMessages true conns q = .sessionNotFound ∧
    ∀ k t, postMessages true conns q ≠ .handled k t := by
  have h : postMessages true conns q = .sessionNotFound := by
    simp [postMessages, hres, truthyOpt, hs, habs]
  exact ⟨h, fun k t => by simp [h]⟩

/-- C5 witness: a supplied identifier absent from the registry yields the
404 outcome. -/
theorem c5_session_not_found_witness :
    postMessages true [("abc", 5)] (some "zzz") = .sessionNotFound ∧
    ∀ k t, postMessages true [("abc", 5)] (some "zzz") ≠ .handled k t :=
  c5_session_not_found [("abc", 5)] (some "zzz") "zzz" rfl (by decide) rfl

/-- C10: on `POST /messages` with no supplied identifier, the resolved
identifier of a singleton registry is necessarily still present at the
lookup (resolution and lookup act on the same registry value, with no
suspension point in between), so the session-not-found branch is
unreachable on this path. -/
theorem c10_no_phantom_session (serverUp : Bool) (conns : Registry)
    (q : Option String) (hq : truthyOpt q = false) :
    postMessages serverUp conns q ≠ .sessionNotFound ∧
    ∀ k t, conns = [(k, t)] →
      resolvedSessionId conns q = some k ∧ mapGet conns k = some t := by
  constructor
  · cases serverUp with
    | false => simp [postMessages]
    | true =>
      by_cases hlen : conns.length = 1
      · obtain ⟨p, hp⟩ := List.length_eq_one.mp hlen
        subst hp
        have hres : resolvedSessionId [p] q = some p.1 := by
          simp [resolvedSessionId, hq, mapKeys]
        by_cases hk : p.1 = ""
        · simp [postMessages, hres, truthyOpt, hk]
        · have hkb : (p.1 == "") = false := beq_eq_false_iff_ne.mpr hk
          simp [postMessages, hres, truthyOpt, hkb, mapGet, List.find?]
      · have hres : resolvedSessionId conns q = q := by
          simp [resolvedSessionId, hq, hlen]
        simp [postMessages, hres, hq]
  · intro k t hc
    subst hc
    refine ⟨by simp [resolvedSessionId, hq, mapKeys], ?_⟩
    simp [mapGet, List.find?]

/-- C10 witness: with a singleton registry and no supplied identifier the
outcome is not 404 and the resolved key is found. -/
theorem c10_no_phantom_session_witness :
    postMessages true [("abc", 5)] none ≠ .sessionNotFound ∧
    ∀ k t, ([("abc", 5)] : Registry) = [(k, t)] →
      resolvedSessionId [("abc", 5)] none = some k ∧
      mapGet [("abc", 5)] k = some t :=
  c10_no_phantom_session true [("abc", 5)] none rfl

/-- C2: for every accepted persistent-stream connection (backend up,
transport constructed), the registry insert happens strictly before the
attach to the backend handler starts; the `session_init` ready notification
occurs exactly when attachment succeeds and only after that success; and on
attachment failure the entry is deleted and no ready notification is ever
written. -/
theorem c2_attach_before_announce (query : Option String) (genId : String)
    (transport : Nat) (attachOk : Bool) :
    occursBefore (sseHandlerTrace true query genId transport true attachOk)
      (.registryInsert (effectiveSessionId query genId) transport)
      (.attachStart transport) ∧
    (SseEvent.notifyReady (effectiveSessionId query genId) ∈
        sseHandlerTrace true query genId transport true attachOk ↔ attachOk = true) ∧
    (attachOk = true →
      occursBefore (sseHandlerTrace true query genId transport true attachOk)
        (.attachSucceeded transport)
        (.notifyReady (effectiveSessionId query genId))) ∧
    (attachOk = false →
      SseEvent.registryDelete (effectiveSessionId query genId) ∈
        sseHandlerTrace true query genId transport true attachOk) := by
  cases attachOk with
  | false =>
    refine ⟨⟨0, 1, by omega, rfl, rfl⟩, ?_, ?_, ?_⟩
    · simp [sseHandlerTrace]
    · intro h; cases h
    · intro _; simp [sseHandlerTrace]
  | true =>
    refine ⟨⟨0, 1, by omega, rfl, rfl⟩, ?_, ?_, ?_⟩
    · simp [sseHandlerTrace]
    · intro _; exact ⟨2, 3, by omega, rfl, rfl⟩
    · intro h; cases h

/-- C2 witness: a concrete successful attach with a client-supplied
identifier. -/
theorem c2_attach_before_announce_witness :
    occursBefore (sseHandlerTrace true (some "abc") "gen" 7 true true)
      (.registryInsert (effectiveSessionId (some "abc") "gen") 7)
      (.attachStart 7) ∧
    occursBefore (sseHandlerTrace true (some "abc") "gen" 7 true true)
      (.attachSucceeded 7)
      (.notifyReady (effectiveSessionId (some "abc") "gen")) :=
  ⟨(c2_attach_before_announce (some "abc") "gen" 7 true).1,
   (c2_attach_before_announce (some "abc") "gen" 7 true).2.2.1 rfl⟩

theorem hexDigit_isHex : ∀ m, m < 16 → isHexChar (hexDigit m) = true := by decide

theorem variant_isHex : ∀ m, m < 16 → isHexChar (hexDigit ((m &&& 3) ||| 8)) = true := by
  decide

theorem variant_cases :
    ∀ m, m < 16 → hexDigit ((m &&& 3) ||| 8) ∈ ['8', '9', 'a', 'b'] := by decide

/-- C9: for every random source, `generateSessionId` produces a 36-character
string in the 8-4-4-4-12 hyphenated layout, with version nibble `4` at
position 14, variant nibble in 8/9/a/b at position 19, and hex digits at
every non-hyphen position. -/
theorem c9_uuid_shape (f : Nat → Nat) :
    (generateSessionId f).length = 36 ∧
    (generateSessionId f).data.getD 8 ' ' = '-' ∧
    (generateSessionId f).data.getD 13 ' ' = '-' ∧
    (generateSessionId f).data.getD 18 ' ' = '-' ∧
    (generateSessionId f).data.getD 23 ' ' = '-' ∧
    (generateSessionId f).data.getD 14 ' ' = '4' ∧
    (generateSessionId f).data.getD 19 ' ' ∈ ['8', '9', 'a', 'b'] ∧
    ∀ i, i < 36 → i ≠ 8 → i ≠ 13 → i ≠ 18 → i ≠ 23 →
      isHexChar ((generateSessionId f).data.getD i ' ') = true := by
  have hchars : (generateSessionId f).data =
      [hexDigit (f 0 % 16), hexDigit (f 1 % 16), hexDigit (f 2 % 16),
       hexDigit (f 3 % 16), hexDigit (f 4 % 16), hexDigit (f 5 % 16),
       hexDigit (f 6 % 16), hexDigit (f 7 % 16), '-',
       hexDigit (f 8 % 16), hexDigit (f 9 % 16), hexDigit (f 10 % 16),
       hexDigit (f 11 % 16), '-', '4',
       hexDigit (f 12 % 16), hexDigit (f 13 % 16), hexDigit (f 14 % 16), '-',
       hexDigit ((f 15 % 16) &&& 3 ||| 8),
       hexDigit (f 16 % 16), hexDigit (f 17 % 16), hexDigit (f 18 % 16), '-',
       hexDigit (f 19 % 16), hexDigit (f 20 % 16), hexDigit (f 21 % 16),
       hexDigit (f 22 % 16), hexDigit (f 23 % 16), hexDigit (f 24 % 16),
       hexDigit (f 25 % 16), hexDigit (f 26 % 16), hexDigit (f 27 % 16),
       hexDigit (f 28 % 16), hexDigit (f 29 % 16), hexDigit (f 30 % 16)] := rfl
  have hlen : (generateSessionId f).length = 36 := by
    show (generateSessionId f).data.length = 36
    rw [hchars]
    rfl
  refine ⟨hlen, by rw [hchars]; rfl, by rw [hchars]; rfl, by rw [hchars]; rfl,
    by rw [hchars]; rfl, by rw [hchars]; rfl, ?_, ?_⟩
  · rw [hchars]
    exact variant_cases _ (Nat.mod_lt _ (by decide))
  · intro i h36 h8 h13 h18 h23
    rw [hchars]
    interval_cases i <;>
      first
        | omega
        | rfl
        | exact hexDigit_isHex _ (Nat.mod_lt _ (by decide))
        | exact variant_isHex _ (Nat.mod_lt _ (by decide))

/-- C9 witness: shape facts at a concrete random source, with the inner
position hypotheses discharged at position 0. -/
theorem c9_uuid_shape_witness :
    (generateSessionId (fun _ => 5)).length = 36 ∧
    (generateSessionId (fun _ => 5)).data.getD 14 ' ' = '4' ∧
    isHexChar ((generateSessionId (fun _ => 5)).data.getD 0 ' ') = true :=
  ⟨(c9_uuid_shape (fun _ => 5)).1,
   (c9_uuid_shape (fun _ => 5)).2.2.2.2.2.1,
   (c9_uuid_shape (fun _ => 5)).2.2.2.2.2.2.2 0 (by decide) (by decide) (by decide)
     (by decide) (by decide)⟩

/-- C6 counterexample: on the alt variant, the unknown method `frobnicate`
is answered with a SUCCESS envelope carrying a "not yet implemented"
message — not with an UnknownMethod-shaped error — so the claim, which
quantifies over both direct-call endpoint variants, fails.  (No backend
operation is invoked, so that half of the claim does hold here.) -/
theorem c6_counterexample :
    (apiMcpAlt true dateIsoNum "now" bkConst reqUnknown).1 =
      AltOutcome.success (Json.num 1)
        (Json.obj [("message", Json.str "Method frobnicate received but not yet implemented")]) ∧
    altIsError (apiMcpAlt true dateIsoNum "now" bkConst reqUnknown).1 = false ∧
    (apiMcpAlt true dateIsoNum "now" bkConst reqUnknown).2 = [] :=
  ⟨rfl, rfl, rfl⟩

/-- C6 amended: an unknown method invokes no backend operation on either
variant; the main variant returns the UnknownMethod-shaped error envelope
(code -32603, message "Unknown method: ..."), while the alt variant returns
a success envelope with a "received but not yet implemented" message. -/
theorem c6_unknown_method (backend : String → Json → Json) (dateIso : Int → String)
    (nowIso : String) (req : RpcRequest) (m : String)
    (hm : req.method = some m) (hm0 : m ≠ "")
    (hunk : knownMethods.contains m = false)
    (hv : req.jsonrpc = some "2.0") :
    apiMcpMain true backend req =
      (.rpcError req.id (-32603) ("Unknown method: " ++ m), []) ∧
    apiMcpAlt true dateIso nowIso backend req =
      (.success req.id
        (.obj [("message", .str ("Method " ++ m ++ " received but not yet implemented"))]), []) := by
  have hmb : (m == "") = false := beq_eq_false_iff_ne.mpr hm0
  have hng : m ≠ "get_supported_networks" := by
    intro h; rw [h] at hunk; simp [knownMethods] at hunk
  have hnb : m ≠ "get_balance" := by
    intro h; rw [h] at hunk; simp [knownMethods] at hunk
  have hnl : m ≠ "get_latest_block" := by
    intro h; rw [h] at hunk; simp [knownMethods] at hunk
  have hnt : m ≠ "get_transaction" := by
    intro h; rw [h] at hunk; simp [knownMethods] at hunk
  have hmem : m ∉ knownMethods := by simpa using hunk
  constructor
  · simp [apiMcpMain, hm, hmem]
  · simp [apiMcpAlt, hm, hv, truthyOpt, hmb,
      beq_eq_false_iff_ne.mpr hng, beq_eq_false_iff_ne.mpr hnb,
      beq_eq_false_iff_ne.mpr hnl, beq_eq_false_iff_ne.mpr hnt]

/-- C6 amended witness: concrete unknown method on both variants. -/
theorem c6_unknown_method_witness :
    apiMcpMain true bkConst reqUnknown =
      (.rpcError (Json.num 1) (-32603) "Unknown method: frobnicate", []) ∧
    apiMcpAlt true dateIsoNum "now" bkConst reqUnknown =
      (.success (Json.num 1)
        (.obj [("message", Json.str "Method frobnicate received but not yet implemented")]), []) :=
  c6_unknown_method bkConst dateIsoNum "now" reqUnknown "frobnicate"
    rfl (by decide) rfl rfl

/-- C7 counterexample: the main variant never reads the `jsonrpc` field — a
request with `jsonrpc = "1.0"` is dispatched to the backend operation
(`get_supported_networks` is invoked and a success envelope is returned)
instead of being rejected with an InvalidProtocolVersion error, so the
claim, which quantifies over both variants, fails. -/
theorem c7_counterexample :
    apiMcpMain true bkConst reqBadVersion =
      (.success (Json.num 1) (Json.str "ok"), ["get_supported_networks"]) ∧
    reqBadVersion.jsonrpc ≠ some "2.0" :=
  ⟨rfl, by decide⟩

/-- C7 amended: only the alt variant validates the protocol version — it
rejects any envelope with `jsonrpc ≠ "2.0"` with the invalid-version error
and invokes no backend operation; the main variant ignores the field and
dispatches known methods regardless. -/
theorem c7_version_check (backend : String → Json → Json) (dateIso : Int → String)
    (nowIso : String) (req : RpcRequest)
    (hv : req.jsonrpc ≠ some "2.0") :
    apiMcpAlt true dateIso nowIso backend req = (.invalidVersion (idOrNull req.id), []) ∧
    ∀ m, req.method = some m → knownMethods.contains m = true →
      (apiMcpMain true backend req).2 = [m] := by
  constructor
  · simp [apiMcpAlt, hv]
  · intro m hm hk
    have hmem : m ∈ knownMethods := by simpa using hk
    simp [apiMcpMain, hm, hmem]

/-- C7 amended witness: concrete bad-version envelope on both variants. -/
theorem c7_version_check_witness :
    apiMcpAlt true dateIsoNum "now" bkConst reqBadVersion =
      (.invalidVersion (Json.num 1), []) ∧
    ∀ m, reqBadVersion.method = some m → knownMethods.contains m = true →
      (apiMcpMain true bkConst reqBadVersion).2 = [m] :=
  c7_version_check bkConst dateIsoNum "now" reqBadVersion (by decide)

/-- C8 counterexample: on the alt variant, a successful `get_latest_block`
call whose backend result carries the BigInt block number 2^60 emits that
value in the response body as a NATIVE number (`Number(block.number)`), not
as a decimal string — refuting the claim that every successful direct call
coerces all BigInt values to decimal strings.  (`gasUsed`/`gasLimit` are
stringified, `number` and the timestamp input are not.) -/
theorem c8_counterexample :
    jget (bkBlock "get_latest_block" (Json.obj [])) "number" =
      Json.big 1152921504606846976 ∧
    (apiMcpAlt true dateIsoNum "now" bkBlock reqLatestBlock).1 =
      AltOutcome.success (Json.num 1)
        (Json.obj [("number", Json.num 1152921504606846976),
                   ("hash", Json.str "0xabc"),
                   ("timestamp", Json.str "1700000000000"),
                   ("transactions", Json.arr []),
                   ("gasUsed", Json.str "21000"),
                   ("gasLimit", Json.str "30000000"),
                   ("network", Json.str "sei")]) :=
  ⟨rfl, rfl⟩

/-- C8 amended: the BigInt-to-decimal-string guarantee holds on the main
variant: every successful `POST /api/mcp` response body there is the backend
result with each BigInt leaf replaced by its decimal string representation
and nothing else changed (in particular no BigInt survives and none becomes
a native number).  The alt variant does not share this guarantee. -/
theorem c8_bigint_serialization (backend : String → Json → Json)
    (req : RpcRequest) (i r : Json) (inv : List String)
    (h : apiMcpMain true backend req = (.success i r, inv)) :
    ∃ m, req.method = some m ∧ inv = [m] ∧
      bigsCoerced (backend m req.params) r = true := by
  cases hmo : req.method with
  | none =>
    have he : apiMcpMain true backend req =
        (.rpcError req.id (-32603) "Unknown method: undefined", []) := by
      simp [apiMcpMain, hmo]
    rw [he] at h
    injection h with h1 h2
    cases h1
  | some m =>
    by_cases hk : m ∈ knownMethods
    · have he : apiMcpMain true backend req =
          (.success req.id (serializeBigInts (backend m req.params)), [m]) := by
        simp [apiMcpMain, hmo, hk]
      rw [he] at h
      injection h with h1 h2
      injection h1 with hi hr
      exact ⟨m, rfl, h2.symm, hr ▸ bigsCoerced_serialize _⟩
    · have he : apiMcpMain true backend req =
          (.rpcError req.id (-32603) ("Unknown method: " ++ m), []) := by
        simp [apiMcpMain, hmo, hk]
      rw [he] at h
      injection h with h1 h2
      cases h1

/-- C8 amended witness: a `get_balance` success on the main variant whose
backend result is the BigInt 2^60 is serialized as the decimal string. -/
theorem c8_bigint_serialization_witness :
    ∃ m, (RpcRequest.mk (some "2.0") (Json.num 1) (some "get_balance")
        (Json.obj [])).method = some m ∧
      (["get_balance"] : List String) = [m] ∧
      bigsCoerced ((fun _ _ => Json.big 1152921504606846976) m
          (Json.obj [] : Json))
        (Json.str "1152921504606846976") = true :=
  c8_bigint_serialization (fun _ _ => Json.big 1152921504606846976)
    (RpcRequest.mk (some "2.0") (Json.num 1) (some "get_balance") (Json.obj []))
    (Json.num 1) (Json.str "1152921504606846976") ["get_balance"] rfl

/-! ## Registry/state-machine helper lemmas for C3 and C4 -/

theorem mapSet_fresh (m : Registry) (k : String) (v : Nat)
    (h : ∀ p ∈ m, p.1 ≠ k) : mapSet m k v = m ++ [(k, v)] := by
  have hcond : m.any (fun p => p.1 == k) = false := by
    rw [List.any_eq_false]
    intro p hp
    simp [h p hp]
  simp [mapSet, hcond]

theorem mapDelete_of_absent (m : Registry) (k : String)
    (h : ∀ p ∈ m, p.1 ≠ k) : mapDelete m k = m := by
  unfold mapDelete
  rw [List.filter_eq_self]
  intro p hp
  simpa using h p hp

theorem filter_key_map_swap (l : List (Nat × String)) (k : String) :
    (l.map swapPair).filter (fun p => decide (p.1 ≠ k)) =
      (l.filter (fun c => decide (c.2 ≠ k))).map swapPair := by
  induction l with
  | nil => rfl
  | cons a l ih =>
    rw [List.map_cons, List.filter_cons, List.filter_cons]
    have heq : (decide ((swapPair a).1 ≠ k)) = (decide (a.2 ≠ k)) := rfl
    rw [heq]
    cases hd : decide (a.2 ≠ k) with
    | false =>
      rw [if_neg Bool.false_ne_true, if_neg Bool.false_ne_true]
      exact ih
    | true =>
      rw [if_pos rfl, if_pos rfl, List.map_cons, ih]

theorem filter_count_one {α β : Type} [DecidableEq β] (f : α → β) (l : List α)
    (h : (l.map f).Nodup) (c : α) (hc : c ∈ l) :
    (l.filter (fun x => decide (f x = f c))).length = 1 := by
  induction l with
  | nil => cases hc
  | cons a l ih =>
    rw [List.map_cons, List.nodup_cons] at h
    rcases List.mem_cons.mp hc with heq | hcl
    · subst heq
      have hnil : l.filter (fun x => decide (f x = f c)) = [] := by
        rw [List.filter_eq_nil_iff]
        intro x hx
        simp only [decide_eq_true_eq]
        intro hfx
        exact h.1 (hfx ▸ List.mem_map_of_mem f hx)
      simp [List.filter_cons, hnil]
    · have hne : f a ≠ f c := by
        intro he
        exact h.1 (he ▸ List.mem_map_of_mem f hcl)
      simp [List.filter_cons, hne, ih h.2 hcl]

theorem goodState_init : goodState initState := by
  refine ⟨rfl, List.nodup_nil, List.nodup_nil, ?_⟩
  intro c hc
  cases hc

theorem goodState_openOk (s : ServerState) (q : Option String) (g : String)
    (hs : goodState s)
    (hfree : (s.openStreams.map Prod.snd).contains (effectiveSessionId q g) = false) :
    goodState (execStep s (.openOk q g)) := by
  obtain ⟨hreg, hsnd, hfst, hser⟩ := hs
  have hnotmem : effectiveSessionId q g ∉ s.openStreams.map Prod.snd := by
    simpa using hfree
  have hkeys : ∀ p ∈ s.connections, p.1 ≠ effectiveSessionId q g := by
    intro p hp he
    rw [hreg] at hp
    obtain ⟨c, hc, hpc⟩ := List.mem_map.mp hp
    apply hnotmem
    have hc2 : c.2 = effectiveSessionId q g := by
      rw [← hpc] at he
      simpa [swapPair] using he
    exact hc2 ▸ List.mem_map_of_mem Prod.snd hc
  refine ⟨?_, ?_, ?_, ?_⟩
  · show mapSet s.connections (effectiveSessionId q g) s.nextSerial =
      (s.openStreams ++ [(s.nextSerial, effectiveSessionId q g)]).map swapPair
    rw [mapSet_fresh _ _ _ hkeys, hreg, List.map_append]
    rfl
  · show ((s.openStreams ++ [(s.nextSerial, effectiveSessionId q g)]).map Prod.snd).Nodup
    rw [List.map_append,
      show List.map Prod.snd [((s.nextSerial, effectiveSessionId q g) : Nat × String)] =
        [effectiveSessionId q g] from rfl, List.nodup_append]
    refine ⟨hsnd, List.nodup_singleton _, ?_⟩
    rw [List.disjoint_singleton]
    exact hnotmem
  · show ((s.openStreams ++ [(s.nextSerial, effectiveSessionId q g)]).map Prod.fst).Nodup
    rw [List.map_append,
      show List.map Prod.fst [((s.nextSerial, effectiveSessionId q g) : Nat × String)] =
        [s.nextSerial] from rfl, List.nodup_append]
    refine ⟨hfst, List.nodup_singleton _, ?_⟩
    rw [List.disjoint_singleton]
    intro hmem
    obtain ⟨c, hc, hc1⟩ := List.mem_map.mp hmem
    exact absurd hc1 (Nat.ne_of_lt (hser c hc))
  · show ∀ c ∈ s.openStreams ++ [(s.nextSerial, effectiveSessionId q g)],
      c.1 < s.nextSerial + 1
    intro c hc
    rcases List.mem_append.mp hc with hl | hr
    · exact Nat.lt_succ_of_lt (hser c hl)
    · rw [List.mem_singleton.mp hr]
      exact Nat.lt_succ_self _

theorem goodState_openFail (s : ServerState) (q : Option String) (g : String)
    (hs : goodState s)
    (hfree : (s.openStreams.map Prod.snd).contains (effectiveSessionId q g) = false) :
    goodState (execStep s (.openFail q g)) := by
  obtain ⟨hreg, hsnd, hfst, hser⟩ := hs
  have hnotmem : effectiveSessionId q g ∉ s.openStreams.map Prod.snd := by
    simpa using hfree
  have hkeys : ∀ p ∈ s.connections, p.1 ≠ effectiveSessionId q g := by
    intro p hp he
    rw [hreg] at hp
    obtain ⟨c, hc, hpc⟩ := List.mem_map.mp hp
    apply hnotmem
    have hc2 : c.2 = effectiveSessionId q g := by
      rw [← hpc] at he
      simpa [swapPair] using he
    exact hc2 ▸ List.mem_map_of_mem Prod.snd hc
  refine ⟨?_, hsnd, hfst, fun c hc => Nat.lt_succ_of_lt (hser c hc)⟩
  show mapDelete (mapSet s.connections (effectiveSessionId q g) s.nextSerial)
      (effectiveSessionId q g) = s.openStreams.map swapPair
  rw [mapSet_fresh _ _ _ hkeys]
  unfold mapDelete
  rw [List.filter_append, List.filter_eq_self.mpr (fun p hp => by simpa using hkeys p hp)]
  simp [hreg]

theorem goodState_close (s : ServerState) (serial : Nat) (hs : goodState s) :
    goodState (stepClose s serial) := by
  obtain ⟨hreg, hsnd, hfst, hser⟩ := hs
  unfold stepClose
  cases hfind : s.openStreams.find? (fun c => c.1 == serial) with
  | none => exact ⟨hreg, hsnd, hfst, hser⟩
  | some c =>
    have hcmem : c ∈ s.openStreams := List.mem_of_find?_eq_some hfind
    have hcser : c.1 = serial := by
      have := List.find?_some hfind
      simpa using this
    refine ⟨?_, ?_, ?_, ?_⟩
    · show mapDelete s.connections c.2 =
        (s.openStreams.filter (fun x => decide (x.1 ≠ serial))).map swapPair
      rw [hreg]
      unfold mapDelete
      rw [filter_key_map_swap]
      congr 1
      apply List.filter_congr
      intro x hx
      rw [decide_eq_decide]
      constructor
      · intro hne he1
        apply hne
        have hxc : x = c :=
          List.inj_on_of_nodup_map hfst hx hcmem (by rw [he1, hcser])
        rw [hxc]
      · intro hne he2
        apply hne
        have hxc : x = c := List.inj_on_of_nodup_map hsnd hx hcmem he2
        rw [hxc, hcser]
    · exact List.Nodup.sublist ((List.filter_sublist _).map _) hsnd
    · exact List.Nodup.sublist ((List.filter_sublist _).map _) hfst
    · intro x hx
      exact hser x (List.mem_of_mem_filter hx)

theorem goodState_run (tr : List Event) :
    ∀ s, goodState s → collisionFreeFrom s tr = true → goodState (execRun s tr) := by
  induction tr with
  | nil => intro s hs _; exact hs
  | cons e es ih =>
    intro s hs hcf
    cases e with
    | openOk q g =>
      simp only [collisionFreeFrom, Bool.and_eq_true] at hcf
      exact ih _ (goodState_openOk s q g hs (by simpa using hcf.1)) hcf.2
    | openFail q g =>
      simp only [collisionFreeFrom, Bool.and_eq_true] at hcf
      exact ih _ (goodState_openFail s q g hs (by simpa using hcf.1)) hcf.2
    | close serial =>
      simp only [collisionFreeFrom, Bool.and_eq_true] at hcf
      exact ih _ (goodState_close s serial hs) hcf.2

theorem registryInvariant_of_goodState (s : ServerState) (h : goodState s) :
    registryInvariant s := by
  obtain ⟨hreg, hsnd, hfst, _⟩ := h
  refine ⟨?_, ?_, ?_⟩
  · rw [hreg, List.length_map]
  · show (mapKeys s.connections).Nodup
    rw [hreg]
    unfold mapKeys
    rw [List.map_map]
    have hcomp : (Prod.fst ∘ swapPair) = (Prod.snd : Nat × String → String) := by
      funext c
      rfl
    rw [hcomp]
    exact hsnd
  · intro p hp
    rw [hreg] at hp
    obtain ⟨c, hc, hpc⟩ := List.mem_map.mp hp
    have hp1 : p.1 = c.2 := by rw [← hpc]; rfl
    rw [hp1]
    exact filter_count_one Prod.snd s.openStreams hsnd c hc

/-- C3 counterexample: two streams opened with the client-supplied
identifier "a" — the second `connections.set` overwrites the first entry
(last-writer-wins), leaving one registry entry for two open persistent
connections, so the claimed invariant (which asserts it holds "including
when a client-supplied identifier collides with a live entry") fails. -/
theorem c3_counterexample :
    ¬ registryInvariant
        (exec [Event.openOk (some "a") "g1", Event.openOk (some "a") "g2"]) := by
  intro h
  have hlen := h.1
  simp [exec, execRun, execStep, initState, mapSet, effectiveSessionId] at hlen

/-- C3 amended: in every state reachable by an execution in which no
stream-open registers an identifier already bound to a live stream, the
registry holds exactly one entry per open persistent connection: its size
equals the number of open connections, no two entries share an identifier,
and each registered identifier is bound to exactly one open stream.  When a
client-supplied identifier collides with a live entry, the overwrite leaves
a single entry for two open connections and the invariant fails. -/
theorem c3_collision_free_invariant (tr : List Event)
    (h : collisionFree tr = true) : registryInvariant (exec tr) :=
  registryInvariant_of_goodState _ (goodState_run tr initState goodState_init h)

/-- C3 amended witness: a collision-free trace with two opens and a close
satisfies the invariant. -/
theorem c3_collision_free_invariant_witness :
    registryInvariant
      (exec [Event.openOk (some "a") "g1", Event.openOk none "h2", Event.close 0]) :=
  c3_collision_free_invariant
    [Event.openOk (some "a") "g1", Event.openOk none "h2", Event.close 0] (by decide)

/-! Lemmas about `mapDelete` used for C4. -/

theorem mapGet_mapDelete_self (m : Registry) (k : String) :
    mapGet (mapDelete m k) k = none := by
  have hfind : (m.filter (fun p => decide (p.1 ≠ k))).find? (fun p => p.1 == k) = none := by
    rw [List.find?_eq_none]
    intro x hx
    have hmem := List.of_mem_filter hx
    simp only [decide_eq_true_eq] at hmem
    simpa using hmem
  simp [mapGet, mapDelete, hfind]

theorem mapGet_mapDelete_ne (m : Registry) (k0 k : String) (hk : k ≠ k0) :
    mapGet (mapDelete m k0) k = mapGet m k := by
  induction m with
  | nil => rfl
  | cons p m ih =>
    by_cases h1 : p.1 = k0
    · have h2 : (p.1 == k) = false := by
        rw [beq_eq_false_iff_ne, h1]
        exact fun he => hk he.symm
      rw [mapDelete, List.filter_cons, if_neg (by simp [h1])]
      rw [show mapGet (p :: m) k = mapGet m k by simp [mapGet, List.find?, h2]]
      exact ih
    · rw [mapDelete, List.filter_cons, if_pos (by simp [h1])]
      by_cases h2 : p.1 = k
      · simp [mapGet, List.find?, h2]
      · have h2b : (p.1 == k) = false := beq_eq_false_iff_ne.mpr h2
        rw [show mapGet (p :: m) k = mapGet m k by simp [mapGet, List.find?, h2b]]
        rw [show mapGet (p :: List.filter (fun p => decide (p.1 ≠ k0)) m) k =
          mapGet (List.filter (fun p => decide (p.1 ≠ k0)) m) k by
            simp [mapGet, List.find?, h2b]]
        exact ih

theorem mapDelete_length (m : Registry) (k : String)
    (hnodup : (mapKeys m).Nodup) :
    (mapDelete m k).length + (if mapGet m k = none then 0 else 1) = m.length := by
  induction m with
  | nil => simp [mapDelete, mapGet]
  | cons p m ih =>
    rw [mapKeys, List.map_cons, List.nodup_cons] at hnodup
    obtain ⟨hp, hm⟩ := hnodup
    by_cases h1 : p.1 = k
    · have hmk : ∀ q ∈ m, q.1 ≠ k := by
        intro q hq he
        exact hp (by rw [← h1] at he; exact he ▸ List.mem_map_of_mem Prod.fst hq)
      have hdel : mapDelete m k = m := mapDelete_of_absent m k hmk
      have hget : mapGet (p :: m) k = some p.2 := by
        simp [mapGet, List.find?, h1]
      rw [mapDelete, List.filter_cons, if_neg (by simp [h1]), hget]
      show (mapDelete m k).length + 1 = m.length + 1
      rw [hdel]
    · have h1b : (p.1 == k) = false := beq_eq_false_iff_ne.mpr h1
      have hget : mapGet (p :: m) k = mapGet m k := by
        simp [mapGet, List.find?, h1b]
      rw [mapDelete, List.filter_cons, if_pos (by simp [h1]), hget]
      show (mapDelete m k).length + 1 + _ = m.length + 1
      rw [Nat.add_right_comm]
      rw [ih hm]

/-- C4 counterexample: in `collisionState`, connection 0 is still open and
bound to "a", but the registry is already empty (its entry was removed when
the colliding connection 1 closed).  Closing connection 0 leaves the
registry size unchanged at 0 — it does not decrease by exactly 1 — refuting
the claim, whose quantifier explicitly includes closes after a same-
identifier re-registration. -/
theorem c4_counterexample :
    collisionState.openStreams = [(0, "a")] ∧
    collisionState.connections.length = 0 ∧
    (execStep collisionState (Event.close 0)).connections.length = 0 ∧
    collisionState.connections.length ≠
      (execStep collisionState (Event.close 0)).connections.length + 1 := by
  refine ⟨by decide, by decide, by decide, by decide⟩

/-- C4 amended: the close callback of a connection bound to identifier s
removes precisely the registry entry currently stored under key s — when a
later live connection re-registered s, it is that newer entry that is
removed — and leaves every other key untouched; the registry size decreases
by exactly 1 when s is present and by 0 when s is absent (the latter occurs
only after identifier collisions). -/
theorem c4_close_frame (s : ServerState) (serial : Nat) (c : Nat × String)
    (hfind : s.openStreams.find? (fun x => x.1 == serial) = some c)
    (hnodup : (mapKeys s.connections).Nodup) :
    mapGet (stepClose s serial).connections c.2 = none ∧
    (∀ k, k ≠ c.2 →
      mapGet (stepClose s serial).connections k = mapGet s.connections k) ∧
    (stepClose s serial).connections.length +
      (if mapGet s.connections c.2 = none then 0 else 1) = s.connections.length := by
  have hconn : (stepClose s serial).connections = mapDelete s.connections c.2 := by
    unfold stepClose
    rw [hfind]
  rw [hconn]
  exact ⟨mapGet_mapDelete_self _ _,
    fun k hk => mapGet_mapDelete_ne _ _ _ hk,
    mapDelete_length _ _ hnodup⟩

/-- C4 amended witness: closing the younger of two distinct sessions
removes exactly its own entry (size 2 to 1) and leaves the other key
readable. -/
theorem c4_close_frame_witness :
    mapGet (stepClose (exec [Event.openOk (some "a") "g1",
        Event.openOk (some "b") "g2"]) 1).connections "b" = none ∧
    (∀ k, k ≠ "b" →
      mapGet (stepClose (exec [Event.openOk (some "a") "g1",
          Event.openOk (some "b") "g2"]) 1).connections k =
        mapGet (exec [Event.openOk (some "a") "g1",
          Event.openOk (some "b") "g2"]).connections k) ∧
    (stepClose (exec [Event.openOk (some "a") "g1",
        Event.openOk (some "b") "g2"]) 1).connections.length +
      (if mapGet (exec [Event.openOk (some "a") "g1",
          Event.openOk (some "b") "g2"]).connections "b" = none then 0 else 1) =
      (exec [Event.openOk (some "a") "g1",
        Event.openOk (some "b") "g2"]).connections.length :=
  c4_close_frame
    (exec [Event.openOk (some "a") "g1", Event.openOk (some "b") "g2"])
    1 (1, "b") (by decide) (by decide)

end SeiMcp
